import Mathlib

/-!
Verification of the CodeCraft Studio generation pipeline (ai_agent.py,
video_generator.py, models.py) against its natural-language specification.

Shallow embedding conventions:
* Python strings are Lean `String`; `s.lower()` is `strLower`; the Python
  substring test `sub in s` is `strContains s sub`.
* A pydub `AudioSegment` is a list of rational samples, one sample per
  millisecond of track length (`len(seg)` in ms = `List.length`); dB gain
  factors (`10 ^ (db / 20)`, irrational) are abstracted as a supplied
  amplitude-factor function.
* The numpy waveform path of `generate_background_music` keeps its real
  44100 Hz sample grid: a `Track` stores its sample list and sample rate,
  and `np.sin (2 * pi * x)` is abstracted as a supplied function `s`.
* Exceptions are `Except` / `Option`; database commits are modelled by an
  environment that decides which `db.session.commit()` calls fail, and the
  committed (persisted) record states are collected in a trace.
-/

/-- Lowercase a string character by character, embedding Python `str.lower()`
for the ASCII keyword alphabet used by the source. -/
def strLower (s : String) : String := String.mk (s.data.map Char.toLower)

/-- Helper for the substring test: does `sub` occur in the character list? -/
def containsAux (sub : List Char) : List Char → Bool
  | [] => sub.isEmpty
  | c :: rest => List.isPrefixOf sub (c :: rest) || containsAux sub rest

/-- Embedding of the Python substring test `sub in s`. -/
def strContains (s sub : String) : Bool := containsAux sub.data s.data

/-- Embedding of `any(word in lyrics_lower for word in words)`. -/
def anyWordIn (s : String) (words : List String) : Bool :=
  words.any (fun w => strContains s w)

/-!  Scene Planner: `VideoGenerator.analyze_scene_for_lyrics`
     (src/video_generator.py lines 470-496).  -/

/-- Embedding of `VideoGenerator.analyze_scene_for_lyrics(lyrics, verse_type)`:
first-match-wins ordered keyword classification of a verse into a scene
category. -/
def analyzeSceneForLyrics (lyrics : String) (verseType : String) : String :=
  let ll := strLower lyrics
  if anyWordIn ll ["battle", "fight", "war", "sword", "victory"] then
    "epic_battle"
  else if anyWordIn ll ["divine", "sacred", "eternal", "heaven", "glory"] then
    "sacred_temple"
  else if anyWordIn ll ["heart", "love", "soul", "emotion"] then
    "emotional_closeup"
  else if anyWordIn ll ["rise", "ascend", "journey", "path", "forward"] then
    "cinematic_journey"
  else if verseType = "chorus" then
    "grand_vista"
  else
    "heroic_scene"

/-!  Mixer: `InvictusAIAgent.mix_audio` (src/ai_agent.py lines 384-406).
     An `AudioSeg` is a list of rational samples, one per millisecond.  -/

/-- Embedding of `AudioSegment.silent(duration)`: `d` milliseconds of zero
samples. -/
def silentSeg (d : Nat) : List ℚ := List.replicate d 0

/-- Embedding of pydub `a.overlay(b)`: sample-wise sum over the base
segment's extent; the overlaid segment is truncated to the base's length. -/
def overlaySeg (a b : List ℚ) : List ℚ :=
  (List.range a.length).map (fun i => a.getD i 0 + b.getD i 0)

/-- Embedding of `InvictusAIAgent.mix_audio(voice_audio, music_audio)`.
The parameter `dbFactor` abstracts pydub's dB-to-amplitude conversion
`10 ^ (db / 20)` used by `music_audio - 15`. -/
def mixAudio (dbFactor : ℚ → ℚ) (voice music : List ℚ) : List ℚ :=
  let maxLength := max voice.length music.length
  let v := if voice.length < maxLength then
    voice ++ silentSeg (maxLength - voice.length) else voice
  let m := if music.length < maxLength then
    music ++ silentSeg (maxLength - music.length) else music
  let m2 := m.map (fun x => x * dbFactor (-15))
  overlaySeg v m2

theorem overlaySeg_length (a b : List ℚ) : (overlaySeg a b).length = a.length := by
  simp [overlaySeg]

theorem silentSeg_length (d : Nat) : (silentSeg d).length = d := by
  simp [silentSeg]

/-- C8: Scene classification of a verse is deterministic and first-match-wins:
the result always lies in the fixed six-category enumeration, and any verse
whose lowercased text contains "battle" resolves to the battle scene
(`epic_battle`) regardless of what other keywords — such as "divine" — it
also contains, because the battle check is first in the `if/elif` chain. -/
theorem scene_classification_battle_first (lyrics verseType : String) :
    analyzeSceneForLyrics lyrics verseType ∈
      ["epic_battle", "sacred_temple", "emotional_closeup",
       "cinematic_journey", "grand_vista", "heroic_scene"] ∧
    (strContains (strLower lyrics) "battle" = true →
      analyzeSceneForLyrics lyrics verseType = "epic_battle") := by
  constructor
  · simp only [analyzeSceneForLyrics]
    split_ifs <;> simp
  · intro h
    simp only [analyzeSceneForLyrics, anyWordIn]
    simp [h]

/-- Witness for C8: a verse containing both "battle" and "divine" is
classified as the battle scene. -/
theorem scene_classification_battle_first_witness :
    strContains (strLower "Battle of the divine") "battle" = true ∧
    analyzeSceneForLyrics "Battle of the divine" "verse" = "epic_battle" :=
  ⟨by decide,
   (scene_classification_battle_first "Battle of the divine" "verse").2 (by decide)⟩

/-- C2: for every pair of audio tracks, including zero-length ones, the mixer
pads the shorter track with silence and returns a mixed track whose length is
exactly `max (len voice) (len background)`; no truncation occurs for any
combination of input lengths (and for any dB-gain semantics). -/
theorem mix_audio_length (dbFactor : ℚ → ℚ) (voice music : List ℚ) :
    (mixAudio dbFactor voice music).length = max voice.length music.length := by
  unfold mixAudio
  rw [overlaySeg_length]
  split_ifs with h
  · simp only [List.length_append, silentSeg, List.length_replicate]
    omega
  · omega

/-!  Lyric Generator: `InvictusAIAgent.generate_template_lyrics` and
     `InvictusAIAgent.generate_lyrics` (src/ai_agent.py lines 144-246).  -/

/-- A verse entry of the structured lyric document: the Python dict
`{'type': ..., 'lyrics': ..., 'timing': ...}`. -/
structure Verse where
  vtype : String
  lyrics : String
  timing : String
deriving DecidableEq

/-- The structured lyric document returned by the lyric generator. -/
structure LyricsDoc where
  title : String
  theme : String
  full_text : String
  verses : List Verse
deriving DecidableEq

/-- Template line table `themes_lyrics['epic']`. -/
def epicLines : List String :=
  ["Rise above the shadow's call",
   "Through the fire we stand tall",
   "Victory echoes through the land",
   "United we make our final stand"]

/-- Template line table `themes_lyrics['battle']`. -/
def battleLines : List String :=
  ["Warriors gather in the dawn",
   "Steel and courage pressing on",
   "Glory waits beyond the fight",
   "We are champions of the light"]

/-- Template line table `themes_lyrics['sacred']`. -/
def sacredLines : List String :=
  ["Divine light guides our way",
   "Sacred vows we keep today",
   "Eternal grace within our souls",
   "Heaven's plan for us unfolds"]

/-- Embedding of `InvictusAIAgent.generate_template_lyrics(theme, title)`:
selects a line table by theme keyword, builds alternating verse/chorus
entries with `i*30:(i+1)*30` timing strings, and joins the lines with
newlines into `full_text`. -/
def generateTemplateLyrics (theme title : String) : LyricsDoc :=
  let themeLower := strLower theme
  let selectedLyrics :=
    if strContains themeLower "battle" || strContains themeLower "war" then
      battleLines
    else if strContains themeLower "sacred" || strContains themeLower "divine" then
      sacredLines
    else
      epicLines
  { title := title
    theme := theme
    full_text := String.intercalate "\n" selectedLyrics
    verses := selectedLyrics.enum.map (fun p =>
      { vtype := if p.1 % 2 = 0 then "verse" else "chorus"
        lyrics := p.2
        timing := toString (p.1 * 30) ++ ":" ++ toString ((p.1 + 1) * 30) }) }

/-- Embedding of `InvictusAIAgent.generate_lyrics(theme, title)`: the external
LLM call is abstracted as `llmResult`; `none` means the OpenAI key is absent
or the call raised (the `except` path), in which case the template fallback
is used. -/
def generateLyricsPhase (llmResult : Option LyricsDoc) (theme title : String) :
    LyricsDoc :=
  match llmResult with
  | some d => d
  | none => generateTemplateLyrics theme title

/-- C6: for every non-empty theme and any title, generating lyrics when the
external LLM collaborator always fails returns the deterministic fallback
built from the theme-keyword template table, whose `full_text` is non-empty
and whose verse list is non-empty. -/
theorem fallback_lyrics_nonempty (llmResult : Option LyricsDoc)
    (theme title : String) (hthm : theme ≠ "") (hllm : llmResult = none) :
    generateLyricsPhase llmResult theme title = generateTemplateLyrics theme title ∧
    (generateLyricsPhase llmResult theme title).full_text ≠ "" ∧
    (generateLyricsPhase llmResult theme title).verses ≠ [] := by
  subst hllm
  refine ⟨rfl, ?_, ?_⟩
  · simp only [generateLyricsPhase, generateTemplateLyrics]
    split_ifs <;> decide
  · simp only [generateLyricsPhase, generateTemplateLyrics]
    split_ifs <;> decide

/-- Witness for C6: the LLM failing on theme "war" still yields non-empty
fallback lyrics. -/
theorem fallback_lyrics_nonempty_witness :
    ("war" : String) ≠ "" ∧
    (generateLyricsPhase none "war" "My Title" = generateTemplateLyrics "war" "My Title" ∧
     (generateLyricsPhase none "war" "My Title").full_text ≠ "" ∧
     (generateLyricsPhase none "war" "My Title").verses ≠ []) :=
  ⟨by decide, fallback_lyrics_nonempty none "war" "My Title" (by decide) rfl⟩

/-!  Style Selector: `InvictusAIAgent.analyze_lyrics_for_style` and
     `InvictusAIAgent.analyze_lyrics_for_voice`
     (src/ai_agent.py lines 424-477).  -/

/-- One entry of `learning_data['successful_combinations']`; the timestamp
field is irrelevant to control flow and omitted. -/
structure Combo where
  theme : String
  style : String
  voice_style : String
  rating : Nat
deriving DecidableEq

/-- Condition of the learning-table scan: `combo['theme'].lower() in
theme_lower`. -/
def comboMatches (theme : String) (c : Combo) : Bool :=
  strContains (strLower theme) (strLower c.theme)

/-- Keyword fallback branch of `analyze_lyrics_for_style` (the `if/elif`
chain after the learning-table scan). -/
def keywordStyle (theme : String) : String :=
  let themeLower := strLower theme
  if strContains themeLower "gladiator" || strContains themeLower "arena" then
    "gladiator"
  else if strContains themeLower "sacred" || strContains themeLower "prayer" then
    "gregorian"
  else if strContains themeLower "dark" || strContains themeLower "shadow" then
    "dark"
  else if strContains themeLower "magic" || strContains themeLower "fantasy" then
    "fantasy"
  else if strContains themeLower "emotional" then
    "emotional"
  else if strContains themeLower "modern" || strContains themeLower "pop" then
    "pop"
  else
    "epic"

/-- Embedding of `InvictusAIAgent.analyze_lyrics_for_style(lyrics_text,
theme)`: a linear scan (`for combo in ...: if ...: return combo['style']`)
over the successful-combinations list in storage order, falling back to the
keyword table. -/
def analyzeLyricsForStyle (combos : List Combo) (lyricsText theme : String) :
    String :=
  match combos.find? (comboMatches theme) with
  | some c => c.style
  | none => keywordStyle theme

/-- Embedding of `InvictusAIAgent.analyze_lyrics_for_voice(lyrics_text,
theme)`. -/
def analyzeLyricsForVoice (lyricsText theme : String) : String :=
  let themeLower := strLower theme
  if strContains themeLower "battle" || strContains themeLower "war" ||
      strContains themeLower "champion" then
    "heroic_male"
  else if strContains themeLower "sacred" || strContains themeLower "divine" ||
      strContains themeLower "eternal" then
    "choir"
  else if strContains themeLower "emotional" || strContains themeLower "love" ||
      strContains themeLower "heart" then
    "soprano"
  else if strContains themeLower "mystery" || strContains themeLower "secret" then
    "whisper"
  else
    "heroic_male"

/-- Two recorded combinations for the same theme keyword: "dark" was appended
first (older), "pop" second (most recent). -/
def twoWarCombos : List Combo :=
  [{ theme := "war", style := "dark", voice_style := "heroic_male", rating := 5 },
   { theme := "war", style := "pop", voice_style := "heroic_male", rating := 5 }]

/-- Counterexample to C4: with two recorded entries matching theme "war", the
most-recently-appended matching entry has style "pop", but the selector
returns "dark" — the scan runs from the front of the append-ordered list, so
the OLDEST matching entry wins, not the most recent one. -/
theorem style_recency_counterexample :
    (twoWarCombos.reverse.find? (comboMatches "war")).map Combo.style =
      some "pop" ∧
    analyzeLyricsForStyle twoWarCombos "" "war" = "dark" ∧
    ("dark" : String) ≠ "pop" := by
  refine ⟨?_, ?_, by decide⟩
  · decide
  · decide

/-- C4 (amended): the style selector scans the recorded combinations in
append order and returns the style of the EARLIEST-appended matching entry;
only if no recorded entry matches is the ordered keyword table applied. -/
theorem style_selector_first_match (pre : List Combo) (c : Combo)
    (post : List Combo) (lyricsText theme : String)
    (hpre : ∀ c' ∈ pre, comboMatches theme c' = false)
    (hc : comboMatches theme c = true) :
    analyzeLyricsForStyle (pre ++ c :: post) lyricsText theme = c.style ∧
    (∀ combos : List Combo, (∀ c' ∈ combos, comboMatches theme c' = false) →
      analyzeLyricsForStyle combos lyricsText theme = keywordStyle theme) := by
  constructor
  · unfold analyzeLyricsForStyle
    rw [List.find?_append]
    have hnone : pre.find? (comboMatches theme) = none := by
      rw [List.find?_eq_none]
      intro x hx
      simp [hpre x hx]
    rw [hnone]
    simp [List.find?, hc]
  · intro combos hnomatch
    unfold analyzeLyricsForStyle
    have hnone : combos.find? (comboMatches theme) = none := by
      rw [List.find?_eq_none]
      intro x hx
      simp [hnomatch x hx]
    rw [hnone]

/-- Witness for the amended C4: with an older "war"→"dark" entry in front,
the selector returns "dark" even though a newer "war"→"pop" entry exists. -/
theorem style_selector_first_match_witness :
    (∀ c' ∈ ([] : List Combo), comboMatches "war" c' = false) ∧
    comboMatches "war" { theme := "war", style := "dark",
                         voice_style := "heroic_male", rating := 5 } = true ∧
    analyzeLyricsForStyle twoWarCombos "" "war" = "dark" :=
  ⟨by simp, by decide,
   (style_selector_first_match []
     { theme := "war", style := "dark", voice_style := "heroic_male", rating := 5 }
     [{ theme := "war", style := "pop", voice_style := "heroic_male", rating := 5 }]
     "" "war" (by simp) (by decide)).1⟩

/-!  Learning table: `InvictusAIAgent.learn_from_generation`
     (src/ai_agent.py lines 464-498).  -/

/-- One entry of `learning_data['generation_history']` (timestamp omitted). -/
structure HistEntry where
  generation_number : Nat
  theme : String
  style : String
  voice_style : String
deriving DecidableEq

/-- The `learning_data` dictionary of the agent (the `scene_preferences` key
is never touched by `learn_from_generation` and is omitted). -/
structure LearningData where
  successful_combinations : List Combo
  style_effectiveness : List (String × List Nat)
  generation_history : List HistEntry
deriving DecidableEq

/-- The mutable agent state relevant to learning: `self.generation_count`
and `self.learning_data`. -/
structure AgentState where
  generation_count : Nat
  learning_data : LearningData
deriving DecidableEq

/-- Embedding of the `style_effectiveness` dictionary update: create the key
with `[]` if absent, then append the rating. -/
def updateEffectiveness : List (String × List Nat) → String → Nat →
    List (String × List Nat)
  | [], style, rating => [(style, [rating])]
  | (s, rs) :: rest, style, rating =>
    if s = style then (s, rs ++ [rating]) :: rest
    else (s, rs) :: updateEffectiveness rest style rating

/-- Embedding of `InvictusAIAgent.learn_from_generation(theme, style,
voice_style, success_rating)`: appends to `successful_combinations` when the
rating is at least 4, appends to `generation_history`, and pops the OLDEST
history entry when the history exceeds 100 entries. -/
def learnFromGeneration (st : AgentState) (theme style voice : String)
    (rating : Nat) : AgentState :=
  let count := st.generation_count + 1
  let ld := st.learning_data
  let combos :=
    if 4 ≤ rating then
      ld.successful_combinations ++
        [{ theme := theme, style := style, voice_style := voice, rating := rating }]
    else ld.successful_combinations
  let eff := updateEffectiveness ld.style_effectiveness style rating
  let hist := ld.generation_history ++
    [{ generation_number := count, theme := theme, style := style,
       voice_style := voice }]
  let hist2 := if 100 < hist.length then hist.drop 1 else hist
  { generation_count := count
    learning_data :=
      { successful_combinations := combos
        style_effectiveness := eff
        generation_history := hist2 } }

/-- The agent's initial learning state (`load_learning_data` default). -/
def emptyAgent : AgentState :=
  { generation_count := 0
    learning_data :=
      { successful_combinations := []
        style_effectiveness := []
        generation_history := [] } }

/-- State after `n` successful generations with rating 5, starting empty. -/
def agentAfter (n : Nat) : AgentState :=
  (List.range n).foldl
    (fun st _ => learnFromGeneration st "war" "epic" "heroic_male" 5) emptyAgent

theorem agentAfter_succ (n : Nat) :
    agentAfter (n + 1) =
      learnFromGeneration (agentAfter n) "war" "epic" "heroic_male" 5 := by
  simp [agentAfter, List.range_succ]

theorem agentAfter_combos_length (n : Nat) :
    (agentAfter n).learning_data.successful_combinations.length = n := by
  induction n with
  | zero => rfl
  | succ n ih =>
    rw [agentAfter_succ]
    simp [learnFromGeneration, ih]

/-- Counterexample to C5: after 101 successful `learn_from_generation` calls
the stored successful-combination entries number 101, exceeding the claimed
cap of 100 — only `generation_history` is capped, never
`successful_combinations`. -/
theorem learning_cap_counterexample :
    (agentAfter 101).learning_data.successful_combinations.length = 101 ∧
    ¬ (agentAfter 101).learning_data.successful_combinations.length ≤ 100 := by
  have h := agentAfter_combos_length 101
  exact ⟨h, by omega⟩

/-- C5 (amended): `learn_from_generation` appends a successful combination on
every generation rated at least 4 and leaves that list unbounded, while the
`generation_history` list is the one capped at the most recent 100 entries
(oldest entry popped once the history exceeds 100). -/
theorem learning_history_cap (st : AgentState) (theme style voice : String)
    (rating : Nat) :
    (st.learning_data.generation_history.length ≤ 100 →
      (learnFromGeneration st theme style voice rating).learning_data.generation_history.length ≤ 100) ∧
    (4 ≤ rating →
      (learnFromGeneration st theme style voice rating).learning_data.successful_combinations =
        st.learning_data.successful_combinations ++
          [{ theme := theme, style := style, voice_style := voice,
             rating := rating }]) := by
  constructor
  · intro h
    simp only [learnFromGeneration]
    split_ifs <;> simp_all
  · intro h
    simp [learnFromGeneration, h]

/-- Witness for the amended C5: one rated-5 generation from the empty state
keeps the history within the cap and appends the combination. -/
theorem learning_history_cap_witness :
    emptyAgent.learning_data.generation_history.length ≤ 100 ∧
    (learnFromGeneration emptyAgent "war" "epic" "heroic_male" 5).learning_data.generation_history.length ≤ 100 ∧
    (learnFromGeneration emptyAgent "war" "epic" "heroic_male" 5).learning_data.successful_combinations =
      [{ theme := "war", style := "epic", voice_style := "heroic_male",
         rating := 5 }] :=
  ⟨by decide,
   (learning_history_cap emptyAgent "war" "epic" "heroic_male" 5).1 (by decide),
   by decide⟩

/-!  Audio Synthesizer: `InvictusAIAgent.synthesize_voice`
     (src/ai_agent.py lines 274-323).  -/

/-- Environment of the voice synthesizer: the external gTTS call (abstracted;
`none` means the call raised), whether the in-`try` effect-application steps
succeed, the dB-to-amplitude conversion, and pydub's low-pass filter
(abstracted). -/
structure VoiceEnv where
  tts : String → Option (List ℚ)
  effectsOk : Bool
  dbFactor : ℚ → ℚ
  lowpass : List ℚ → List ℚ

/-- Embedding of pydub gain (`seg + db` / `seg - db`): scale every sample by
the amplitude factor of `db` decibels. -/
def gainSeg (dbFactor : ℚ → ℚ) (db : ℚ) (xs : List ℚ) : List ℚ :=
  xs.map (fun x => x * dbFactor db)

/-- Embedding of the `_spawn(frame_rate = rate * num/den).set_frame_rate(rate)`
pitch trick: playback is slowed/sped by `num/den`, so the track is resampled
to `len * den / num` samples taken at stride `num / den`. -/
def resampleSeg (num den : Nat) (xs : List ℚ) : List ℚ :=
  (List.range (xs.length * den / num)).map (fun i => xs.getD (i * num / den) 0)

/-- Embedding of the per-style effect chain of `synthesize_voice`. -/
def applyVoiceStyleFx (env : VoiceEnv) (voiceStyle : String) (va : List ℚ) :
    List ℚ :=
  if voiceStyle = "heroic_male" then
    gainSeg env.dbFactor 3 (resampleSeg 9 10 va)
  else if voiceStyle = "soprano" then
    resampleSeg 12 10 va
  else if voiceStyle = "choir" then
    let h1 := resampleSeg 21 20 va
    let h2 := resampleSeg 19 20 va
    overlaySeg (overlaySeg va (gainSeg env.dbFactor (-6) h1))
      (gainSeg env.dbFactor (-6) h2)
  else if voiceStyle = "whisper" then
    env.lowpass (gainSeg env.dbFactor (-10) va)
  else va

/-- Embedding of `InvictusAIAgent.synthesize_voice(text, voice_style)`: the
whole body is wrapped in `try`; if the gTTS call or any effect-application
step raises, the `except` branch returns 30 seconds of silence. -/
def synthesizeVoice (env : VoiceEnv) (text voiceStyle : String) : List ℚ :=
  match env.tts text with
  | none => silentSeg 30000
  | some raw =>
    if env.effectsOk then applyVoiceStyleFx env voiceStyle raw
    else silentSeg 30000

/-- C9: the voice synthesizer never raises past its boundary — for every text
and voice style, when the TTS call or any effect application fails,
`synthesize_voice` returns a silent segment of exactly 30000 ms, regardless
of the text's length or the requested style. -/
theorem voice_synthesis_fallback (env : VoiceEnv) (text voiceStyle : String)
    (h : env.tts text = none ∨ env.effectsOk = false) :
    synthesizeVoice env text voiceStyle = silentSeg 30000 ∧
    (synthesizeVoice env text voiceStyle).length = 30000 := by
  have hs : synthesizeVoice env text voiceStyle = silentSeg 30000 := by
    rcases h with h | h
    · simp [synthesizeVoice, h]
    · unfold synthesizeVoice
      rcases env.tts text with _ | raw
      · rfl
      · simp [h]
  exact ⟨hs, by rw [hs, silentSeg_length]⟩

/-- An always-failing TTS environment. -/
def ttsDownEnv : VoiceEnv :=
  { tts := fun _ => none
    effectsOk := true
    dbFactor := fun _ => 1
    lowpass := fun xs => xs }

/-- Witness for C9: a failing TTS call yields exactly 30000 ms of silence. -/
theorem voice_synthesis_fallback_witness :
    (ttsDownEnv.tts "Rise above" = none ∨ ttsDownEnv.effectsOk = false) ∧
    (synthesizeVoice ttsDownEnv "Rise above" "choir" = silentSeg 30000 ∧
     (synthesizeVoice ttsDownEnv "Rise above" "choir").length = 30000) :=
  ⟨Or.inl rfl, voice_synthesis_fallback ttsDownEnv "Rise above" "choir" (Or.inl rfl)⟩

/-!  Generation model accessor: `Generation.get_lyrics_data`
     (src/models.py lines 20-27 and lines 72-79).  -/

/-- A parsed Python JSON value (`json.loads` result). -/
inductive PyJson where
  | jnull : PyJson
  | jbool : Bool → PyJson
  | jnum : Int → PyJson
  | jstr : String → PyJson
  | jarr : List PyJson → PyJson
  | jobj : List (String × PyJson) → PyJson

/-- Embedding of the first `Generation.get_lyrics_data` variant (models.py
lines 20-27): the truthiness test and the parse are both inside `try`, and a
bare `except` returns `{}`. The parameter `parse` abstracts `json.loads`;
`none` means it raised. -/
def getLyricsDataV1 (parse : String → Option PyJson)
    (lyricsData : Option String) : PyJson :=
  match lyricsData with
  | none => PyJson.jobj []
  | some s =>
    if s = "" then PyJson.jobj []
    else
      match parse s with
      | some v => v
      | none => PyJson.jobj []

/-- Embedding of the second `Generation.get_lyrics_data` variant (models.py
lines 72-79): the truthiness test is outside `try`, `json.loads` inside with
a bare `except` returning `{}`, and the falsy case returns `{}`. -/
def getLyricsDataV2 (parse : String → Option PyJson)
    (lyricsData : Option String) : PyJson :=
  match lyricsData with
  | none => PyJson.jobj []
  | some s =>
    if s = "" then PyJson.jobj []
    else
      match parse s with
      | some v => v
      | none => PyJson.jobj []

/-- C10: `Generation.get_lyrics_data()` is total at the public interface —
for a stored `lyrics_data` that is null (`none`), the empty string, or text
the JSON parser rejects, both variants return the empty dict `{}` instead of
raising. -/
theorem get_lyrics_data_total (parse : String → Option PyJson)
    (lyricsData : Option String)
    (h : lyricsData = none ∨ lyricsData = some "" ∨
      ∃ s, lyricsData = some s ∧ parse s = none) :
    getLyricsDataV1 parse lyricsData = PyJson.jobj [] ∧
    getLyricsDataV2 parse lyricsData = PyJson.jobj [] := by
  rcases h with h | h | ⟨s, h, hp⟩ <;> subst h
  · exact ⟨rfl, rfl⟩
  · exact ⟨rfl, rfl⟩
  · simp only [getLyricsDataV1, getLyricsDataV2]
    split_ifs <;> simp [hp]

/-- A parser that rejects every input, standing for `json.loads` on malformed
text. -/
def rejectAllParse : String → Option PyJson := fun _ => none

/-- Witness for C10: malformed stored text yields the empty dict from both
variants. -/
theorem get_lyrics_data_total_witness :
    (some "not valid json" = (none : Option String) ∨
     some "not valid json" = some "" ∨
     ∃ s, some "not valid json" = some s ∧ rejectAllParse s = none) ∧
    (getLyricsDataV1 rejectAllParse (some "not valid json") = PyJson.jobj [] ∧
     getLyricsDataV2 rejectAllParse (some "not valid json") = PyJson.jobj []) :=
  ⟨Or.inr (Or.inr ⟨"not valid json", rfl, rfl⟩),
   get_lyrics_data_total rejectAllParse (some "not valid json")
     (Or.inr (Or.inr ⟨"not valid json", rfl, rfl⟩))⟩

/-!  Generation Orchestrator: `InvictusAIAgent.generate_complete_content`
     (src/ai_agent.py lines 84-142) against the `Generation` record
     (src/models.py).  Inside the orchestrator's `try`, the lyric phase
     recovers internally (template fallback), the music and video phases
     catch all their exceptions and return `None`, and
     `learn_from_generation` / `log_security_event` swallow their own
     errors, so the only operations that can raise after the record is
     constructed are the `db.session.commit()` calls; the environment
     decides which of them fail.  The trace collects the record state at
     each SUCCESSFUL commit, i.e. the persisted history of the record.  -/

/-- Status values the orchestrator writes into `Generation.status`
(`'pending'` is the column default from models.py). -/
inductive GenStatus where
  | pending
  | generating
  | completed
  | failed
deriving DecidableEq

/-- The `Generation` record fields touched by the orchestrator; the
`error_message` column exists on the model (models.py line 68) but timestamps
are abstracted to a Bool flag for `completed_at`. -/
structure GenRecord where
  title : String
  theme : String
  voice_style : String
  music_style : String
  lyrics_data : String
  status : GenStatus
  audio_file : Option String
  video_file : Option String
  error_message : Option String
  completed_at : Bool
deriving DecidableEq

/-- Environment of one `generate_complete_content` run: the abstract LLM
outcome, `json.dumps` serialization, the filename timestamp, whether the
internally-recovered music/video phases succeed, and the outcome of each of
the three possible `db.session.commit()` calls (creation commit, completion
commit, and the recovery commit inside the `except` handler) together with
the exception text each would raise. -/
structure OrchEnv where
  llmResult : Option LyricsDoc
  dumps : LyricsDoc → String
  timestamp : String
  musicOk : Bool
  videoOk : Bool
  commit1Ok : Bool
  commit2Ok : Bool
  commit3Ok : Bool
  commit1Msg : String
  commit2Msg : String
  commit3Msg : String
  newId : Nat

/-- The dict returned by `generate_complete_content` on success. -/
structure OrchResult where
  id : Nat
  audio_file : Option String
  video_file : Option String
  lyrics_data : LyricsDoc
  voice_style : String
  music_style : String
deriving DecidableEq

/-- Embedding of `InvictusAIAgent.generate_complete_content(theme, title)`.
Returns the caller-visible outcome (`Except.error` means an exception
propagated out) paired with the list of record states in the order they were
successfully committed to the store. -/
def genCompleteContent (env : OrchEnv) (combos : List Combo) (theme : String)
    (titleOpt : Option String) : Except String OrchResult × List GenRecord :=
  let title := match titleOpt with
    | none => "Invictus " ++ theme
    | some t => if t = "" then "Invictus " ++ theme else t
  let lyricsData := generateLyricsPhase env.llmResult theme title
  let voiceStyle := analyzeLyricsForVoice lyricsData.full_text theme
  let musicStyle := analyzeLyricsForStyle combos lyricsData.full_text theme
  let rec0 : GenRecord :=
    { title := title, theme := theme, voice_style := voiceStyle
      music_style := musicStyle, lyrics_data := env.dumps lyricsData
      status := GenStatus.generating, audio_file := none, video_file := none
      error_message := none, completed_at := false }
  if env.commit1Ok then
    let audioFile := if env.musicOk then
      some ("music_" ++ musicStyle ++ "_" ++ env.timestamp ++ ".mp3") else none
    let videoFile := if env.videoOk then
      some ("video_" ++ env.timestamp ++ ".mp4") else none
    let rec1 := { rec0 with audio_file := audioFile, video_file := videoFile
                            status := GenStatus.completed, completed_at := true }
    if env.commit2Ok then
      (Except.ok { id := env.newId, audio_file := audioFile
                   video_file := videoFile, lyrics_data := lyricsData
                   voice_style := voiceStyle, music_style := musicStyle },
       [rec0, rec1])
    else
      let recF := { rec1 with status := GenStatus.failed }
      if env.commit3Ok then (Except.error env.commit2Msg, [rec0, recF])
      else (Except.error env.commit3Msg, [rec0])
  else
    let recF := { rec0 with status := GenStatus.failed }
    if env.commit3Ok then (Except.error env.commit1Msg, [recF])
    else (Except.error env.commit3Msg, [])

/-- The persisted status history of the record across one orchestrator run. -/
def commitStatusTrace (env : OrchEnv) (combos : List Combo) (theme : String)
    (titleOpt : Option String) : List GenStatus :=
  ((genCompleteContent env combos theme titleOpt).2).map GenRecord.status

/-- Position of a status along the lifecycle chain
pending → generating → {completed, failed}. -/
def statusRank : GenStatus → Nat
  | GenStatus.pending => 0
  | GenStatus.generating => 1
  | GenStatus.completed => 2
  | GenStatus.failed => 2

/-- C7: over every environment (any combination of failing commits), the
persisted statuses of a Generation record advance strictly along the chain
pending → generating → {completed, failed}: consecutive committed states
strictly increase in chain rank, and every committed state other than the
final one is still `generating` — once `completed` or `failed` is persisted,
the orchestrator never commits the record again. -/
theorem generation_status_chain (env : OrchEnv) (combos : List Combo)
    (theme : String) (titleOpt : Option String) :
    List.Chain' (fun a b => statusRank a < statusRank b)
      (commitStatusTrace env combos theme titleOpt) ∧
    ∀ s ∈ (commitStatusTrace env combos theme titleOpt).dropLast,
      s = GenStatus.generating := by
  unfold commitStatusTrace genCompleteContent
  split_ifs <;> refine ⟨?_, ?_⟩ <;>
    simp [statusRank, List.chain'_cons, List.dropLast]

/-- An environment in which every external collaborator succeeds. -/
def allOkEnv : OrchEnv :=
  { llmResult := none
    dumps := fun _ => "{}"
    timestamp := "20250101_000000"
    musicOk := true
    videoOk := true
    commit1Ok := true
    commit2Ok := true
    commit3Ok := true
    commit1Msg := "commit 1 failed"
    commit2Msg := "commit 2 failed"
    commit3Msg := "commit 3 failed"
    newId := 1 }

/-- Witness for C7: on a fully successful run the persisted statuses are
generating then completed, which satisfy the chain conditions. -/
theorem generation_status_chain_witness :
    List.Chain' (fun a b => statusRank a < statusRank b)
      (commitStatusTrace allOkEnv [] "war" none) ∧
    ∀ s ∈ (commitStatusTrace allOkEnv [] "war" none).dropLast,
      s = GenStatus.generating :=
  generation_status_chain allOkEnv [] "war" none

/-- An environment in which the completion commit raises and the recovery
commit succeeds. -/
def storageFailEnv : OrchEnv :=
  { llmResult := none
    dumps := fun _ => "{}"
    timestamp := "20250101_000000"
    musicOk := true
    videoOk := true
    commit1Ok := true
    commit2Ok := false
    commit3Ok := true
    commit1Msg := "commit 1 failed"
    commit2Msg := "storage offline"
    commit3Msg := "commit 3 failed"
    newId := 1 }

/-- Counterexample to C1: when the completion commit raises, the exception
propagates to the caller and the persisted record ends with status failed —
but NO error message is recorded on the record: the handler at ai_agent.py
lines 137-142 writes only `generation.status = 'failed'`, so
`error_message` stays null on every committed state, contradicting the
claim that the error message is recorded. -/
theorem error_message_not_recorded :
    (genCompleteContent storageFailEnv [] "war" none).1 =
      Except.error "storage offline" ∧
    commitStatusTrace storageFailEnv [] "war" none =
      [GenStatus.generating, GenStatus.failed] ∧
    ∀ r ∈ (genCompleteContent storageFailEnv [] "war" none).2,
      r.error_message = none := by
  refine ⟨rfl, by decide, by decide⟩

/-- C1 (amended): if a commit raises after the Generation record has been
constructed and the recovery commit succeeds, the orchestrator re-raises the
exception to the caller (it does not swallow the error at the top level) and
the last persisted state of the record has status failed — but the error
message is NOT recorded on the record: `error_message` is null on every
persisted state. -/
theorem failed_status_on_storage_error (env : OrchEnv) (combos : List Combo)
    (theme : String) (titleOpt : Option String)
    (hfail : env.commit1Ok = false ∨ env.commit2Ok = false)
    (hrec : env.commit3Ok = true) :
    (∃ msg, (genCompleteContent env combos theme titleOpt).1 =
      Except.error msg) ∧
    ((genCompleteContent env combos theme titleOpt).2.getLast?).map
      GenRecord.status = some GenStatus.failed ∧
    ∀ r ∈ (genCompleteContent env combos theme titleOpt).2,
      r.error_message = none := by
  rcases hc1 : env.commit1Ok with _ | _
  · simp only [genCompleteContent, hc1, hrec, if_false, if_true,
      Bool.false_eq_true, if_neg, ite_false, ite_true]
    refine ⟨⟨env.commit1Msg, by simp⟩, by simp, ?_⟩
    intro r hr
    simp only [List.mem_singleton] at hr
    subst hr
    rfl
  · have hc2 : env.commit2Ok = false := by
      rcases hfail with h | h
      · rw [h] at hc1; cases hc1
      · exact h
    simp only [genCompleteContent, hc1, hc2, hrec, Bool.false_eq_true,
      ite_false, ite_true]
    refine ⟨⟨env.commit2Msg, by simp⟩, by simp, ?_⟩
    intro r hr
    simp only [List.mem_cons, List.mem_singleton, List.not_mem_nil,
      or_false] at hr
    rcases hr with hr | hr <;> subst hr <;> rfl

/-- Witness for the amended C1: the storage-failure environment satisfies the
hypotheses and the run ends failed with no error message recorded. -/
theorem failed_status_on_storage_error_witness :
    (storageFailEnv.commit1Ok = false ∨ storageFailEnv.commit2Ok = false) ∧
    storageFailEnv.commit3Ok = true ∧
    ((∃ msg, (genCompleteContent storageFailEnv [] "war" none).1 =
        Except.error msg) ∧
     ((genCompleteContent storageFailEnv [] "war" none).2.getLast?).map
        GenRecord.status = some GenStatus.failed ∧
     ∀ r ∈ (genCompleteContent storageFailEnv [] "war" none).2,
        r.error_message = none) :=
  ⟨Or.inr rfl, rfl,
   failed_status_on_storage_error storageFailEnv [] "war" none (Or.inr rfl) rfl⟩

/-!  Background Track Builder: `InvictusAIAgent.generate_background_music`
     (src/ai_agent.py lines 325-382).  The numpy waveform is kept on its
     44100 Hz sample grid; `np.sin(2 * pi * x)` is abstracted as a supplied
     function `s` applied to the cycle count `x` (floating-point
     transcendentals have no exact rational embedding), which the
     normalization and length properties never depend on.  With
     `duration_ms = 0` the sample array is empty, `np.max` raises, and the
     `except` branch returns `AudioSegment.silent(duration_ms)` (pydub
     default frame rate 11025 Hz).  -/

/-- Embedding of `int(sample_rate * duration_seconds)` with
`sample_rate = 44100` and `duration_seconds = duration_ms / 1000`. -/
def sampleCount (durationMs : Nat) : Nat := 44100 * durationMs / 1000

/-- Embedding of `np.linspace(0, durS, n)` at index `i`. -/
def linspaceVal (durS : ℚ) (n i : Nat) : ℚ :=
  if n ≤ 1 then 0 else durS * i / ((n : ℚ) - 1)

/-- Embedding of the per-style waveform sample (melody + harmony + rhythm
sums with the source's amplitudes and frequency ratios); `s x` stands for
`np.sin(2 * pi * x)`. -/
def styleSample (s : ℚ → ℚ) (style : String) (t : ℚ) : ℚ :=
  if style = "epic" then
    s (13081 / 100 * t) * (3 / 10) + s (13081 / 100 * (3 / 2) * t) * (2 / 10) +
      (s (2 * t)) ^ 8 * (1 / 10)
  else if style = "dark" then
    s (110 * t) * (4 / 10) + s (110 * (1 / 2) * t) * (3 / 10)
  else if style = "emotional" then
    s (26163 / 100 * t) * (3 / 10) + s (26163 / 100 * (5 / 4) * t) * (2 / 10)
  else
    s (196 * t) * (3 / 10) + s (196 * (133 / 100) * t) * (2 / 10)

/-- The un-normalized `audio_array` of `generate_background_music`. -/
def styleWave (s : ℚ → ℚ) (style : String) (durationMs : Nat) : List ℚ :=
  (List.range (sampleCount durationMs)).map
    (fun i => styleSample s style
      (linspaceVal ((durationMs : ℚ) / 1000) (sampleCount durationMs) i))

/-- Embedding of `np.max(np.abs(audio_array))` (on a non-empty array). -/
def maxAbs (xs : List ℚ) : ℚ := xs.foldr (fun x m => max |x| m) 0

/-- Embedding of `.astype(np.int16)` on an in-range float: C truncation
toward zero. -/
def truncToInt (x : ℚ) : ℤ := if 0 ≤ x then ⌊x⌋ else ⌈x⌉

/-- Embedding of `audio_array / np.max(np.abs(audio_array)) * 0.7` followed
by `(audio_array * 32767).astype(np.int16)`. -/
def normalizeQuantize (xs : List ℚ) : List ℤ :=
  xs.map (fun x => truncToInt (x / maxAbs xs * (7 / 10) * 32767))

/-- An audio track with its sample list and sample rate (Hz). -/
structure Track where
  samples : List ℤ
  sampleRate : Nat

/-- Embedding of `InvictusAIAgent.generate_background_music(style,
duration_ms)`. -/
def generateBackgroundMusic (s : ℚ → ℚ) (style : String) (durationMs : Nat) :
    Track :=
  if sampleCount durationMs = 0 then
    { samples := List.replicate (11025 * durationMs / 1000) 0
      sampleRate := 11025 }
  else
    { samples := normalizeQuantize (styleWave s style durationMs)
      sampleRate := 44100 }

/-- Exact duration of a track in milliseconds. -/
def trackDurationMs (t : Track) : ℚ :=
  (t.samples.length : ℚ) * 1000 / (t.sampleRate : ℚ)

theorem maxAbs_nonneg (xs : List ℚ) : 0 ≤ maxAbs xs := by
  induction xs with
  | nil => simp [maxAbs]
  | cons a l ih =>
    show 0 ≤ max |a| (maxAbs l)
    exact le_trans ih (le_max_right _ _)

theorem le_maxAbs (xs : List ℚ) (y : ℚ) (h : y ∈ xs) : |y| ≤ maxAbs xs := by
  induction xs with
  | nil => cases h
  | cons a l ih =>
    rcases List.mem_cons.mp h with h | h
    · subst h
      exact le_max_left _ _
    · exact le_trans (ih h) (le_max_right _ _)

theorem abs_truncToInt_le (z : ℚ) : |((truncToInt z : ℤ) : ℚ)| ≤ |z| := by
  unfold truncToInt
  split_ifs with h
  · have h0 : (0 : ℚ) ≤ (⌊z⌋ : ℚ) := by
      exact_mod_cast Int.floor_nonneg.mpr h
    rw [abs_of_nonneg h0, abs_of_nonneg h]
    exact Int.floor_le z
  · have hz : z < 0 := not_le.mp h
    have h0 : ((⌈z⌉ : ℤ) : ℚ) ≤ 0 := by
      have : ⌈z⌉ ≤ (0 : ℤ) := Int.ceil_le.mpr (by exact_mod_cast le_of_lt hz)
      exact_mod_cast this
    rw [abs_of_nonpos h0, abs_of_nonpos (le_of_lt hz)]
    exact neg_le_neg (Int.le_ceil z)

theorem normalizeQuantize_peak (xs : List ℚ) :
    ∀ x ∈ normalizeQuantize xs, |(x : ℚ)| ≤ 7 / 10 * 32767 := by
  intro x hx
  simp only [normalizeQuantize, List.mem_map] at hx
  obtain ⟨y, hy, rfl⟩ := hx
  refine le_trans (abs_truncToInt_le _) ?_
  have hm0 : 0 ≤ maxAbs xs := maxAbs_nonneg xs
  have hym : |y| ≤ maxAbs xs := le_maxAbs xs y hy
  rcases eq_or_lt_of_le hm0 with hm | hm
  · have hy0 : y = 0 := by
      have : |y| ≤ 0 := by rw [hm]; exact hym
      exact abs_eq_zero.mp (le_antisymm this (abs_nonneg y))
    subst hy0
    simp
  · have h1 : |y / maxAbs xs| ≤ 1 := by
      rw [abs_div, abs_of_pos hm]
      exact (div_le_one hm).mpr hym
    have h2 : |y / maxAbs xs * (7 / 10) * 32767| =
        |y / maxAbs xs| * (7 / 10) * 32767 := by
      rw [abs_mul, abs_mul]
      norm_num
    rw [h2]
    nlinarith [abs_nonneg (y / maxAbs xs)]

theorem normalizeQuantize_length (xs : List ℚ) :
    (normalizeQuantize xs).length = xs.length := by
  simp [normalizeQuantize]

theorem styleWave_length (s : ℚ → ℚ) (style : String) (durationMs : Nat) :
    (styleWave s style durationMs).length = sampleCount durationMs := by
  simp [styleWave]

/-- C3: for every style and every duration_ms, the generated background
track's exact duration lies within one 44100-Hz sample-quantization unit
below duration_ms (and never exceeds it), and every quantized sample's
amplitude is at most the normalization ceiling 0.7 of the 16-bit full scale
32767. -/
theorem background_music_bounds (s : ℚ → ℚ) (style : String)
    (durationMs : Nat) :
    ((durationMs : ℚ) - 1000 / 44100 <
        trackDurationMs (generateBackgroundMusic s style durationMs) ∧
      trackDurationMs (generateBackgroundMusic s style durationMs) ≤
        (durationMs : ℚ)) ∧
    ∀ x ∈ (generateBackgroundMusic s style durationMs).samples,
      |(x : ℚ)| ≤ 7 / 10 * 32767 := by
  have hdm := Nat.div_add_mod (44100 * durationMs) 1000
  have hmod : 44100 * durationMs % 1000 < 1000 := Nat.mod_lt _ (by norm_num)
  by_cases hn : sampleCount durationMs = 0
  · have hd : durationMs = 0 := by
      unfold sampleCount at hn
      omega
    subst hd
    refine ⟨⟨?_, ?_⟩, ?_⟩
    · simp [generateBackgroundMusic, sampleCount, trackDurationMs]
    · simp [generateBackgroundMusic, sampleCount, trackDurationMs]
    · intro x hx
      simp [generateBackgroundMusic, sampleCount] at hx
  · have hsamples : (generateBackgroundMusic s style durationMs).samples =
        normalizeQuantize (styleWave s style durationMs) := by
      simp [generateBackgroundMusic, hn]
    have hrate : (generateBackgroundMusic s style durationMs).sampleRate =
        44100 := by
      simp [generateBackgroundMusic, hn]
    have hlen : (generateBackgroundMusic s style durationMs).samples.length =
        sampleCount durationMs := by
      rw [hsamples, normalizeQuantize_length, styleWave_length]
    have hdur : trackDurationMs (generateBackgroundMusic s style durationMs) =
        ((sampleCount durationMs : ℚ) * 1000) / 44100 := by
      unfold trackDurationMs
      rw [hlen, hrate]
      norm_num
    have hub : sampleCount durationMs * 1000 ≤ 44100 * durationMs := by
      unfold sampleCount
      omega
    have hlb : 44100 * durationMs < sampleCount durationMs * 1000 + 1000 := by
      unfold sampleCount
      omega
    have hqub : ((sampleCount durationMs : ℚ)) * 1000 ≤ 44100 * durationMs := by
      exact_mod_cast hub
    have hqlb : (44100 : ℚ) * durationMs <
        (sampleCount durationMs : ℚ) * 1000 + 1000 := by
      exact_mod_cast hlb
    refine ⟨⟨?_, ?_⟩, ?_⟩
    · rw [hdur]
      rw [sub_lt_iff_lt_add, div_add_div_same,
        lt_div_iff₀ (by norm_num : (0 : ℚ) < 44100)]
      linarith
    · rw [hdur]
      rw [div_le_iff₀ (by norm_num : (0 : ℚ) < 44100)]
      linarith
    · intro x hx
      rw [hsamples] at hx
      exact normalizeQuantize_peak _ x hx

/-- Witness for C3: the bounds instantiated at the epic style with a concrete
1 ms duration and a concrete stand-in for the sine oracle. -/
theorem background_music_bounds_witness :
    (((1 : Nat) : ℚ) - 1000 / 44100 <
        trackDurationMs (generateBackgroundMusic (fun _ => 1) "epic" 1) ∧
      trackDurationMs (generateBackgroundMusic (fun _ => 1) "epic" 1) ≤
        ((1 : Nat) : ℚ)) ∧
    ∀ x ∈ (generateBackgroundMusic (fun _ => 1) "epic" 1).samples,
      |(x : ℚ)| ≤ 7 / 10 * 32767 :=
  background_music_bounds (fun _ => 1) "epic" 1
